import Mathlib

/-!
A shallow embedding of the capture-session controller implemented in
src/src/Components/RecordButton.tsx, together with theorems checking the
natural-language specification of the component against the code.

The embedding models:
  * the MIME-type negotiation of startRecording (lines 65-74);
  * the voice-activity-detection (VAD) interval callback (lines 149-187):
    RMS-driven update of the silentFrames counter with hysteresis thresholds
    and the stop decision guarded by a minimum recording duration;
  * the chunk buffering of ondataavailable (lines 80-82) and the artifact
    construction of the onstop handler (lines 84-105);
  * stopRecording (lines 197-227);
  * the whole startRecording control flow (lines 53-195), with the external
    world (device acquisition, codec support, audio-context construction)
    supplied as an explicit environment;
  * the button click handler and its disabled predicate (lines 229-240).

Machine timestamps are naturals (milliseconds), audio bytes are naturals,
energies are exact rationals (the source computes them with IEEE doubles;
all constants involved are exactly representable and the claims under
study do not depend on rounding of the quotient 1000 / 45 beyond Math.round,
which is modelled by round on rationals).
-/

/-- readyState of a MediaStreamTrack, reduced to the one bit the component
inspects: whether the track is live. -/
structure Track where
  live : Bool
deriving DecidableEq

/-- observable component state, the union type at line 26 of the source. -/
inductive RState
  | idle
  | recording
  | finalizing
  | completed
  | error
deriving DecidableEq

/-- MediaRecorder.state as the component consults it (line 213). -/
inductive RecorderSt
  | inactive
  | recording
deriving DecidableEq

/-- observable effects of the component: alerts, state-change notifications,
error notifications, the artifact callback, track.stop() calls on live
tracks, clearing the VAD interval, closing the AudioContext and requesting
MediaRecorder.stop(). audioReady carries the blob bytes, the generated file
name and the negotiated MIME tag. -/
inductive Ev
  | alert (msg : String)
  | stateChange (s : RState)
  | errorNotify (msg : String)
  | audioReady (blob : List Nat) (name : String) (mime : String)
  | trackStop
  | clearVadInterval
  | closeAudioContext
  | recorderStopRequested
deriving DecidableEq

/-- the mutable refs of the component (lines 26-31): state, mediaRecorderRef,
audioChunksRef, streamRef, vadIntervalRef, audioContextRef. -/
structure Refs where
  state : RState
  recorder : Option RecorderSt
  audioChunks : List (List Nat)
  stream : Option (List Track)
  vadInterval : Option Nat
  audioContext : Option Unit
deriving DecidableEq

/-- the refs as React initialises them. -/
def initRefs : Refs :=
  { state := .idle, recorder := none, audioChunks := [], stream := none,
    vadInterval := none, audioContext := none }

/-- MIME-type negotiation of startRecording, lines 65-74: a caller override
is kept only when MediaRecorder.isTypeSupported confirms it; otherwise the
code falls back to opus-in-webm when supported and to plain webm otherwise. -/
def negotiateMime (mimeTypeOverride : Option String)
    (isTypeSupported : String → Bool) : String :=
  let m0 := mimeTypeOverride.getD ""
  let m1 := if m0 ≠ "" ∧ isTypeSupported m0 = false then "" else m0
  if m1 = "" then
    if isTypeSupported "audio/webm;codecs=opus" then "audio/webm;codecs=opus"
    else "audio/webm"
  else m1

/-- silenceThreshold, line 152. -/
def silenceThreshold : ℚ := 0.025

/-- speechThreshold, line 153. -/
def speechThreshold : ℚ := 0.04

/-- minRecordingMs, line 150. -/
def minRecordingMs : Nat := 1500

/-- requiredSilenceFrames, line 154: Math.round((vadSilenceSeconds * 1000) /
(1000 / 45)), the target count of consecutive silent analysis frames at the
45 Hz analysis cadence. -/
def requiredSilenceFrames (vadSilenceSeconds : ℚ) : ℤ :=
  round (vadSilenceSeconds * 1000 / (1000 / 45))

/-- hysteresis update of the silentFrames counter, lines 166-171: increment
below silenceThreshold, reset to 0 above speechThreshold, otherwise leave
the counter unchanged. -/
def vadStep (silentFrames : Nat) (rms : ℚ) : Nat :=
  if rms < silenceThreshold then silentFrames + 1
  else if rms > speechThreshold then 0
  else silentFrames

/-- one VAD interval callback, lines 157-179: update the counter from the
current window energy, then decide to stop exactly when the updated counter
strictly exceeds the required frame count and the elapsed time since
recordingStart strictly exceeds minRecordingMs. Returns the new counter and
the stop decision. -/
def vadTick (silentFrames : Nat) (rms : ℚ) (req : ℤ) (now start : Nat) :
    Nat × Bool :=
  let sf2 := vadStep silentFrames rms
  (sf2, decide ((sf2 : ℤ) > req) && decide (now - start > minRecordingMs))

/-- the VAD loop over a finite trace of (window energy, Date.now()) samples:
runs vadTick on each sample in order and returns the timestamp of the first
stop decision, if any. When the decision fires, stopRecording clears the
interval (lines 201-205), so no later sample is evaluated. -/
def vadRun (req : ℤ) (start : Nat) (silentFrames : Nat) :
    List (ℚ × Nat) → Option Nat
  | [] => none
  | (rms, now) :: rest =>
    if (vadTick silentFrames rms req now start).2 then some now
    else vadRun req start (vadTick silentFrames rms req now start).1 rest

/-- ondataavailable, lines 80-82: append the delivered chunk to the buffer
when its size is positive, drop empty chunks. -/
def ondataavailable (audioChunks : List (List Nat)) (data : List Nat) :
    List (List Nat) :=
  if 0 < data.length then audioChunks ++ [data] else audioChunks

/-- the chunk buffer produced by a whole session's sequence of
ondataavailable deliveries, starting from the empty buffer set at line 78. -/
def bufferChunks (deliveries : List (List Nat)) : List (List Nat) :=
  deliveries.foldl ondataavailable []

/-- the Blob constructed at line 89: concatenation of the buffered chunks in
arrival order. -/
def buildBlob (audioChunks : List (List Nat)) : List Nat :=
  audioChunks.flatten

/-- the generated file name of line 90: filenamePrefix, a hyphen, Date.now()
and the fixed extension ".webm" (pfx models the filenamePrefix prop). -/
def makeFilename (pfx : String) (now : Nat) : String :=
  pfx ++ "-" ++ toString now ++ ".webm"

/-- track.stop() on every live track of a stream, lines 95-97: each live
track becomes ended and one stop call is observed per live track. -/
def stopLiveTracks (tracks : List Track) : List Track × List Ev :=
  (tracks.map (fun _ => { live := false }),
   (tracks.filter (fun t => t.live)).map (fun _ => Ev.trackStop))

/-- the guarded stream teardown of the onstop handler, lines 93-101: when a
stream is held, stop its live tracks and null the ref; otherwise do
nothing. -/
def stopLiveTracksOpt : Option (List Track) → Option (List Track) × List Ev
  | none => (none, [])
  | some ts => (none, (stopLiveTracks ts).2)

/-- track.stop() on every track without a readyState guard, as in the catch
handlers at lines 114 and 190 (the ref is not nulled there). -/
def stopAllTracks (tracks : List Track) : List Track × List Ev :=
  (tracks.map (fun _ => { live := false }), tracks.map (fun _ => Ev.trackStop))

/-- streamRef.current?.getTracks().forEach(track => track.stop()) of the
catch handlers: optional chaining makes a missing stream a no-op. -/
def stopAllTracksOpt : Option (List Track) → Option (List Track) × List Ev
  | none => (none, [])
  | some ts => (some (stopAllTracks ts).1, (stopAllTracks ts).2)

/-- the mediaRecorder.onstop handler, lines 84-105: enter finalizing and
notify, build the blob from the buffered chunks and the file with the
generated name, clear the chunk buffer, deliver the artifact through
onAudioReady, stop the live tracks of the held stream and null the ref,
then enter completed and notify. -/
def onstop (mimeType pfx : String) (now : Nat) (r : Refs) : Refs × List Ev :=
  let blob := buildBlob r.audioChunks
  let fileName := makeFilename pfx now
  ({ r with state := .completed, audioChunks := [],
            stream := (stopLiveTracksOpt r.stream).1 },
   Ev.stateChange .finalizing ::
   Ev.audioReady blob fileName mimeType ::
   ((stopLiveTracksOpt r.stream).2 ++ [Ev.stateChange .completed]))

/-- stopRecording, lines 197-227: clear the VAD interval when one is set,
close the AudioContext when one is held, and request MediaRecorder.stop()
only when a recorder exists and is not already inactive (stop() makes the
recorder inactive at once; its onstop callback is delivered asynchronously).
None of the modelled operations throws, so the catch at lines 220-226 is
unreachable here. -/
def stopRecording (r : Refs) : Refs × List Ev :=
  let r1 := { r with vadInterval := none, audioContext := none }
  let evs1 :=
    (if r.vadInterval.isSome then [Ev.clearVadInterval] else []) ++
    (if r.audioContext.isSome then [Ev.closeAudioContext] else [])
  match r1.recorder with
  | some RecorderSt.recording =>
    ({ r1 with recorder := some .inactive }, evs1 ++ [Ev.recorderStopRequested])
  | _ => (r1, evs1)

/-- the external world as startRecording consults it: the support check of
line 25, the getUserMedia outcome, MediaRecorder.isTypeSupported, and
whether the MediaRecorder constructor, mediaRecorder.start() or the
AudioContext construction for VAD throws (carrying the thrown message). -/
structure Env where
  isSupported : Bool
  getUserMedia : Except String (List Track)
  isTypeSupported : String → Bool
  recorderCtorFail : Option String
  recorderStartFail : Option String
  audioContextFail : Option String

/-- the component props the controller reads (lines 13-21), with their
default values; pfx models the filenamePrefix prop. -/
structure Props where
  pfx : String := "recording"
  useVad : Bool := false
  vadSilenceSeconds : ℚ := 3
  mimeTypeOverride : Option String := none

/-- startRecording, lines 53-195, as a function of the environment, the
props and the current refs, returning the refs and the observable events at
the point where the synchronous control flow of the call ends (the VAD
interval callbacks and the recorder callbacks are modelled separately).
Paths:
  * unsupported environment (54-60): alert, transition to error, notify;
  * getUserMedia rejection or MediaRecorder constructor throw → outer
    catch (189-194): stop all tracks of the held stream via optional
    chaining, transition to idle, notify the error once;
  * mediaRecorder.start() throw → inner catch (112-124): stop all tracks
    (streamRef keeps the stream), transition to idle, alert, notify — and
    control then still falls through to the VAD block;
  * VAD enabled and AudioContext construction throw (139-146): alert,
    transition to error, notify, return — without stopping any track of the
    acquired stream;
  * VAD enabled and analysis graph built (132-188): audioContextRef and
    vadIntervalRef are set. -/
def startRecording (env : Env) (p : Props) (r : Refs) : Refs × List Ev :=
  if env.isSupported = false then
    ({ r with state := .error },
     [Ev.alert "Your browser does not support audio recording.",
      Ev.stateChange .error,
      Ev.errorNotify "MediaRecorder or mediaDevices not supported"])
  else
    match env.getUserMedia with
    | .error e =>
      ({ r with stream := (stopAllTracksOpt r.stream).1, state := .idle },
       (stopAllTracksOpt r.stream).2 ++
       [Ev.stateChange .idle, Ev.errorNotify e])
    | .ok ts =>
      let r1 := { r with stream := some ts }
      match env.recorderCtorFail with
      | some e =>
        ({ r1 with stream := (stopAllTracksOpt r1.stream).1, state := .idle },
         (stopAllTracksOpt r1.stream).2 ++
         [Ev.stateChange .idle, Ev.errorNotify e])
      | none =>
        let r2 := { r1 with recorder := some RecorderSt.inactive,
                            audioChunks := [] }
        let started :=
          match env.recorderStartFail with
          | none =>
            (({ r2 with recorder := some RecorderSt.recording,
                        state := .recording } : Refs),
             [Ev.stateChange .recording])
          | some e =>
            ({ r2 with stream := (stopAllTracksOpt r2.stream).1,
                       state := .idle },
             (stopAllTracksOpt r2.stream).2 ++
             [Ev.stateChange .idle,
              Ev.alert
                ("Microphone access denied. Please allow access and try again."
                 ++ (if e ≠ "" then "\nDetails: " ++ e else "")),
              Ev.errorNotify e])
        if p.useVad then
          match env.audioContextFail with
          | some e =>
            ({ started.1 with state := .error },
             started.2 ++
             [Ev.alert "Error initializing audio context for VAD.",
              Ev.stateChange .error, Ev.errorNotify e])
          | none =>
            ({ started.1 with audioContext := some (), vadInterval := some 1 },
             started.2)
        else started

/-- the actions of the button onClick handler, lines 231-239: from idle or
completed it re-emits idle and invokes startRecording; from recording it
invokes stopRecording; from finalizing and error it does nothing. -/
inductive ClickAct
  | setStateIdle
  | notifyIdle
  | invokeStart
  | invokeStop
deriving DecidableEq

/-- the click handler, lines 231-239. -/
def clickActions : RState → List ClickAct
  | .idle => [.setStateIdle, .notifyIdle, .invokeStart]
  | .completed => [.setStateIdle, .notifyIdle, .invokeStart]
  | .recording => [.invokeStop]
  | .finalizing => []
  | .error => []

/-- the disabled attribute of the button, line 240. -/
def buttonDisabled (s : RState) : Bool :=
  decide (s = .finalizing) || decide (s = .error)

/-- event classifiers used to state ordering properties of the onstop
handler. -/
def isAudioReadyEv : Ev → Bool
  | .audioReady _ _ _ => true
  | _ => false

/-- recognises the completed state-change notification. -/
def isCompletedEv : Ev → Bool
  | .stateChange .completed => true
  | _ => false

/-- recognises a track.stop() call. -/
def isTrackStopEv : Ev → Bool
  | .trackStop => true
  | _ => false

/-- recognises an error notification. -/
def isErrorNotifyEv : Ev → Bool
  | .errorNotify _ => true
  | _ => false

/-- the ordering property claimed of the Artifact notification: every
completed state-change precedes the audioReady notification (vacuously true
when either is absent). -/
def artifactFollowsCompleted (evs : List Ev) : Bool :=
  match evs.findIdx? isCompletedEv, evs.findIdx? isAudioReadyEv with
  | some j, some i => decide (j < i)
  | _, _ => true

/-- count of live tracks a refs snapshot still holds. -/
def liveTrackCount (r : Refs) : Nat :=
  match r.stream with
  | none => 0
  | some ts => (ts.filter (fun t => t.live)).length

/-- the environment of the failing VAD run: a supported browser, device
acquisition succeeding with one live track, every codec supported, recorder
construction and start succeeding, and the AudioContext construction for
the analysis graph throwing. -/
def envVadFail : Env :=
  { isSupported := true,
    getUserMedia := .ok [{ live := true }],
    isTypeSupported := fun _ => true,
    recorderCtorFail := none,
    recorderStartFail := none,
    audioContextFail := some "AudioContext construction failed" }

/-- an environment in which getUserMedia rejects with the given message and
nothing else fails. -/
def envAcqFail (e : String) : Env :=
  { isSupported := true,
    getUserMedia := .error e,
    isTypeSupported := fun _ => true,
    recorderCtorFail := none,
    recorderStartFail := none,
    audioContextFail := none }

/-- a refs snapshot mid-session used to evaluate the onstop handler on a
concrete run: one buffered chunk and one live track held. -/
def refsRecordingSample : Refs :=
  { state := .recording, recorder := some .inactive, audioChunks := [[1, 2, 3]],
    stream := some [{ live := true }], vadInterval := none, audioContext := none }

/-- helper: a fold of ondataavailable deliveries buffers exactly the
non-empty chunks, in arrival order. -/
theorem foldl_ondataavailable (acc ds : List (List Nat)) :
    ds.foldl ondataavailable acc =
      acc ++ ds.filter (fun c => decide (0 < c.length)) := by
  induction ds generalizing acc with
  | nil => simp
  | cons d ds ih =>
    by_cases h : 0 < d.length <;>
      simp [List.foldl_cons, ondataavailable, List.filter_cons, h, ih,
        List.append_assoc]

/-- Claim C1 (code_bug evaluation): when voice-activity detection is enabled
and the audio-analysis graph construction throws after getUserMedia has
delivered a stream with one live track, startRecording does transition to
error and notify the caller, but it stops no track: the acquired device
stream is still held with its track live when the session ends in the error
state, contradicting the specified release contract. -/
theorem c1_vad_init_failure_leaves_device_live :
    (startRecording envVadFail { useVad := true } initRefs).1.state = RState.error ∧
    Ev.errorNotify "AudioContext construction failed" ∈
      (startRecording envVadFail { useVad := true } initRefs).2 ∧
    liveTrackCount (startRecording envVadFail { useVad := true } initRefs).1 = 1 ∧
    Ev.trackStop ∉ (startRecording envVadFail { useVad := true } initRefs).2 := by
  decide

/-- Claim C2 (counterexample): when getUserMedia rejects with a
permission-denied error, the controller ends the call in the idle state,
not in the error state as claimed. -/
theorem c2_counterexample_state_is_idle_not_error :
    (startRecording (envAcqFail "Permission denied") {} initRefs).1.state =
      RState.idle ∧
    (startRecording (envAcqFail "Permission denied") {} initRefs).1.state ≠
      RState.error := by
  decide

/-- Claim C2 (amended): when device acquisition fails, the controller
transitions to the idle state and emits exactly one error notification
carrying the failure; the whole observable output of the call is the idle
state-change followed by that single error notification, with no track-stop
calls. -/
theorem c2_acquisition_failure_idles_with_one_error (e : String) (p : Props) :
    startRecording (envAcqFail e) p initRefs =
      ({ initRefs with state := RState.idle },
       [Ev.stateChange RState.idle, Ev.errorNotify e]) := by
  rfl

/-- Claim C3 (counterexample): on a concrete completed session with one
buffered chunk and one live track, the onstop handler emits the audioReady
artifact notification strictly before the completed state-change, so the
claimed ordering (artifact only after completed) is violated. -/
theorem c3_counterexample_artifact_precedes_completed :
    artifactFollowsCompleted
      (onstop "audio/webm" "recording" 0 refsRecordingSample).2 = false := by
  decide

/-- Claim C3 (amended): in every completed session the Artifact notification
is emitted after the finalizing state-change and before the completed
state-change: the onstop handler's event trace is the finalizing
state-change, then audioReady with the concatenated blob and generated file
name, then only track-stop calls, then the completed state-change. -/
theorem c3_artifact_after_finalizing_before_completed
    (mimeType pfx : String) (now : Nat) (r : Refs) :
    ∃ mid,
      (onstop mimeType pfx now r).2 =
        Ev.stateChange .finalizing ::
        Ev.audioReady (buildBlob r.audioChunks) (makeFilename pfx now) mimeType ::
        (mid ++ [Ev.stateChange .completed]) ∧
      mid.all isTrackStopEv = true := by
  refine ⟨(stopLiveTracksOpt r.stream).2, rfl, ?_⟩
  cases hs : r.stream with
  | none => simp [stopLiveTracksOpt]
  | some ts =>
    simp [stopLiveTracksOpt, stopLiveTracks, List.all_eq_true, isTrackStopEv]

/-- Claim C4: requiredSilenceFrames computes to vadSilenceSeconds times the
45 Hz analysis rate (for whole-second configurations), and one VAD tick
decides to stop exactly when the updated silentFrames counter strictly
exceeds that count and the elapsed time since recording start strictly
exceeds the 1500 ms minimum recording duration. -/
theorem c4_stop_decision_iff_frames_and_min_duration
    (s : Nat) (silentFrames : Nat) (rms : ℚ) (now start : Nat) :
    requiredSilenceFrames (s : ℚ) = (s : ℤ) * 45 ∧
    ((vadTick silentFrames rms (requiredSilenceFrames (s : ℚ)) now start).2 = true ↔
      ((vadTick silentFrames rms (requiredSilenceFrames (s : ℚ)) now start).1 : ℤ) >
        (s : ℤ) * 45 ∧
      now - start > 1500) := by
  have h1 : requiredSilenceFrames (s : ℚ) = (s : ℤ) * 45 := by
    unfold requiredSilenceFrames
    have h2 : (s : ℚ) * 1000 / (1000 / 45) = (((s : ℤ) * 45 : ℤ) : ℚ) := by
      push_cast
      ring
    rw [h2, round_intCast]
  refine ⟨h1, ?_⟩
  simp [vadTick, h1, minRecordingMs, gt_iff_lt]

/-- Claim C5: for every energy-sample trace, including constant silence from
the start, the VAD loop never emits a stop decision at a timestamp whose
elapsed time since recording start is at most the 1500 ms minimum recording
duration. -/
theorem c5_no_stop_before_min_duration
    (samples : List (ℚ × Nat)) (req : ℤ) (start silentFrames t : Nat)
    (h : vadRun req start silentFrames samples = some t) : t - start > 1500 := by
  induction samples generalizing silentFrames with
  | nil => simp [vadRun] at h
  | cons p rest ih =>
    obtain ⟨rms, now⟩ := p
    rw [vadRun] at h
    by_cases hc : (vadTick silentFrames rms req now start).2 = true
    · rw [if_pos hc] at h
      obtain rfl : now = t := by injection h
      simp [vadTick, minRecordingMs] at hc
      exact hc.2
    · rw [if_neg hc] at h
      exact ih _ h

/-- witness for C5: a concrete silent trace stopping at t = 1600 after three
silent frames against a required count of 2, with 1600 - 0 > 1500. -/
theorem c5_no_stop_before_min_duration_witness :
    vadRun 2 0 0 [(0, 1600), (0, 1600), (0, 1600)] = some 1600 ∧
    1600 - 0 > 1500 :=
  ⟨by norm_num [vadRun, vadTick, vadStep, silenceThreshold, speechThreshold,
      minRecordingMs],
   c5_no_stop_before_min_duration [(0, 1600), (0, 1600), (0, 1600)] 2 0 0 1600
     (by norm_num [vadRun, vadTick, vadStep, silenceThreshold, speechThreshold,
        minRecordingMs])⟩

/-- Claim C6: per analysis window the silentFrames counter is incremented
when the energy is below silenceThreshold (0.025), reset to 0 when the
energy is above speechThreshold (0.04), and left unchanged when the energy
lies between the two thresholds. -/
theorem c6_silent_frames_hysteresis_update (silentFrames : Nat) (rms : ℚ) :
    (rms < silenceThreshold → vadStep silentFrames rms = silentFrames + 1) ∧
    (rms > speechThreshold → vadStep silentFrames rms = 0) ∧
    (silenceThreshold ≤ rms → rms ≤ speechThreshold →
      vadStep silentFrames rms = silentFrames) := by
  have ht : silenceThreshold < speechThreshold := by
    norm_num [silenceThreshold, speechThreshold]
  refine ⟨fun h => by simp [vadStep, h], fun h => ?_, fun h1 h2 => ?_⟩
  · have hns : ¬ rms < silenceThreshold := not_lt.mpr (le_of_lt (lt_trans ht h))
    simp [vadStep, hns, h]
  · simp [vadStep, not_lt.mpr h1, not_lt.mpr h2]

/-- Claim C7: stop is idempotent. From any refs snapshot, applying
stopRecording to the result of a first stopRecording changes nothing and
produces no observable effect: no interval clearing, no context close, no
recorder stop request, hence no second transition and no duplicate
notification. -/
theorem c7_stop_idempotent (r : Refs) :
    stopRecording (stopRecording r).1 = ((stopRecording r).1, []) := by
  rcases r with ⟨st, rec, ch, strm, vi, ac⟩
  rcases rec with _ | st2
  · cases vi <;> cases ac <;> simp [stopRecording]
  · cases st2 <;> cases vi <;> cases ac <;> simp [stopRecording]

/-- Claim C8: for every finished session the artifact blob is the
concatenation of the buffered chunks in arrival order, its byte length is
the sum of the buffered chunk lengths, and the buffer holds exactly the
non-empty delivered chunks in arrival order. -/
theorem c8_artifact_concatenation (deliveries : List (List Nat)) :
    (buildBlob (bufferChunks deliveries)).length =
      ((bufferChunks deliveries).map List.length).sum ∧
    bufferChunks deliveries =
      deliveries.filter (fun c => decide (0 < c.length)) := by
  constructor
  · exact List.length_flatten _
  · simpa [bufferChunks] using foldl_ondataavailable [] deliveries

/-- Claim C9 (counterexample): in the error state the record control is
disabled and a click performs no action at all — in particular it does not
invoke startRecording, so no fresh session begins. -/
theorem c9_counterexample_error_click_ignored :
    buttonDisabled RState.error = true ∧
    ClickAct.invokeStart ∉ clickActions RState.error ∧
    clickActions RState.error = [] := by
  decide

/-- Claim C9 (amended): a click invokes startRecording exactly from the idle
and completed states; the button is disabled exactly in the finalizing and
error states, so after reaching error no new start request is accepted. -/
theorem c9_start_only_from_idle_or_completed (s : RState) :
    (ClickAct.invokeStart ∈ clickActions s ↔
      s = RState.idle ∨ s = RState.completed) ∧
    (buttonDisabled s = true ↔ s = RState.finalizing ∨ s = RState.error) := by
  cases s <;> simp [clickActions, buttonDisabled]

/-- Claim C10: whatever MIME type the negotiation selects — including a
caller override naming a non-webm codec, as the audio/mp4 instance shows —
the artifact delivered by the onstop handler carries a file name ending in
".webm". -/
theorem c10_filename_always_webm (mto : Option String) (sup : String → Bool)
    (pfx : String) (now : Nat) (r : Refs) :
    (∃ base,
      Ev.audioReady (buildBlob r.audioChunks) (base ++ ".webm")
          (negotiateMime mto sup) ∈
        (onstop (negotiateMime mto sup) pfx now r).2) ∧
    negotiateMime (some "audio/mp4") (fun _ => true) = "audio/mp4" := by
  constructor
  · refine ⟨pfx ++ "-" ++ toString now, ?_⟩
    exact List.mem_cons_of_mem _ (List.mem_cons_self _ _)
  · rfl
